import Mathlib

/-!
Verification of the TikTok diagnostic relay server (src/index.js, last and
most complete variant of the service, lines 291-737 of the concatenated
file). The definitions below are a shallow embedding of the server's pure
request-processing logic: the PII hash helper, client-IP derivation, the
multi-provider IP-check fallback loop, the two TikTok reachability probes,
and the POST /test-track-tiktok validation / payload-assembly pipeline.
JavaScript string falsiness (undefined or "") is modelled by `Option String`
together with the `truthyS` predicate; `none` stands for an absent key.
-/

namespace TikTokServer

/-! ## SHA-256 (the `crypto.createHash("sha256")` library primitive)

Executable big-endian SHA-256 over byte lists, words kept as `Nat` reduced
modulo 2^32. -/

def w32 (n : Nat) : Nat := n % 4294967296

def rotr (n x : Nat) : Nat := w32 (x / 2 ^ n + x % 2 ^ n * 2 ^ (32 - n))

def shr (n x : Nat) : Nat := x / 2 ^ n

def bsig0 (x : Nat) : Nat := rotr 2 x ^^^ rotr 13 x ^^^ rotr 22 x

def bsig1 (x : Nat) : Nat := rotr 6 x ^^^ rotr 11 x ^^^ rotr 25 x

def ssig0 (x : Nat) : Nat := rotr 7 x ^^^ rotr 18 x ^^^ shr 3 x

def ssig1 (x : Nat) : Nat := rotr 17 x ^^^ rotr 19 x ^^^ shr 10 x

def ch (x y z : Nat) : Nat := (x &&& y) ^^^ ((x ^^^ 4294967295) &&& z)

def maj (x y z : Nat) : Nat := (x &&& y) ^^^ (x &&& z) ^^^ (y &&& z)

/-- The eight working registers / hash words of SHA-256. -/
structure Regs where
  a : Nat
  b : Nat
  c : Nat
  d : Nat
  e : Nat
  f : Nat
  g : Nat
  h : Nat
deriving DecidableEq

def initH : Regs :=
  ⟨1779033703, 3144134277, 1013904242, 2773480762,
   1359893119, 2600822924, 528734635, 1541459225⟩

def roundK : List Nat :=
  [1116352408, 1899447441, 3049323471, 3921009573, 961987163, 1508970993,
   2453635748, 2870763221, 3624381080, 310598401, 607225278, 1426881987,
   1925078388, 2162078206, 2614888103, 3248222580, 3835390401, 4022224774,
   264347078, 604807628, 770255983, 1249150122, 1555081692, 1996064986,
   2554220882, 2821834349, 2952996808, 3210313671, 3336571891, 3584528711,
   113926993, 338241895, 666307205, 773529912, 1294757372, 1396182291,
   1695183700, 1986661051, 2177026350, 2456956037, 2730485921, 2820302411,
   3259730800, 3345764771, 3516065817, 3600352804, 4094571909, 275423344,
   430227734, 506948616, 659060556, 883997877, 958139571, 1322822218,
   1537002063, 1747873779, 1955562222, 2024104815, 2227730452, 2361852424,
   2428436474, 2756734187, 3204031479, 3329325298]
-- (the 64 SHA-256 round constants, written in decimal)

/-- Extend a 16-word message block by `n` schedule words. -/
def extendW : List Nat → Nat → List Nat
  | ws, 0 => ws
  | ws, Nat.succ n =>
    let t := ws.length
    extendW
      (ws ++ [w32 (ssig1 (ws.getD (t - 2) 0) + ws.getD (t - 7) 0 +
        ssig0 (ws.getD (t - 15) 0) + ws.getD (t - 16) 0)]) n

def shaStep (r : Regs) (kw : Nat × Nat) : Regs :=
  let t1 := w32 (r.h + bsig1 r.e + ch r.e r.f r.g + kw.1 + kw.2)
  let t2 := w32 (bsig0 r.a + maj r.a r.b r.c)
  ⟨w32 (t1 + t2), r.a, r.b, r.c, w32 (r.d + t1), r.e, r.f, r.g⟩

def processBlock (hs : Regs) (block : List Nat) : Regs :=
  let ws := extendW block 48
  let r := (roundK.zip ws).foldl shaStep hs
  ⟨w32 (hs.a + r.a), w32 (hs.b + r.b), w32 (hs.c + r.c), w32 (hs.d + r.d),
   w32 (hs.e + r.e), w32 (hs.f + r.f), w32 (hs.g + r.g), w32 (hs.h + r.h)⟩

/-- Big-endian bytes to 32-bit words, four bytes at a time. -/
def bytesToWords : List Nat → List Nat
  | b0 :: b1 :: b2 :: b3 :: rest =>
    (((b0 * 256 + b1) * 256 + b2) * 256 + b3) :: bytesToWords rest
  | _ => []

/-- The 64-bit big-endian length field of the padding. -/
def lenBytes64 (n : Nat) : List Nat :=
  [n / 72057594037927936 % 256, n / 281474976710656 % 256,
   n / 1099511627776 % 256, n / 4294967296 % 256, n / 16777216 % 256,
   n / 65536 % 256, n / 256 % 256, n % 256]

/-- SHA-256 padding: 0x80, zeros to 56 mod 64, then the bit length. -/
def padBytes (ms : List Nat) : List Nat :=
  ms ++ 128 :: List.replicate ((64 - (ms.length + 9) % 64) % 64) 0 ++
    lenBytes64 (8 * ms.length)

def chunksGo (fuel : Nat) (ws : List Nat) : List (List Nat) :=
  match fuel with
  | 0 => []
  | Nat.succ k => ws.take 16 :: chunksGo k (ws.drop 16)

def chunks16 (ws : List Nat) : List (List Nat) := chunksGo (ws.length / 16) ws

def sha256Regs (ms : List Nat) : Regs :=
  (chunks16 (bytesToWords (padBytes ms))).foldl processBlock initH

def hexDigit (n : Nat) : Char :=
  if n < 10 then Char.ofNat (48 + n) else Char.ofNat (87 + n)

def wordHex (w : Nat) : List Char :=
  [hexDigit (w / 268435456 % 16), hexDigit (w / 16777216 % 16),
   hexDigit (w / 1048576 % 16), hexDigit (w / 65536 % 16),
   hexDigit (w / 4096 % 16), hexDigit (w / 256 % 16),
   hexDigit (w / 16 % 16), hexDigit (w % 16)]

def regsHex (r : Regs) : List Char :=
  wordHex r.a ++ wordHex r.b ++ wordHex r.c ++ wordHex r.d ++
  wordHex r.e ++ wordHex r.f ++ wordHex r.g ++ wordHex r.h

def sha256hexBytes (ms : List Nat) : String := String.mk (regsHex (sha256Regs ms))

def utf8Bytes (s : String) : List Nat := s.toUTF8.toList.map (fun b => b.toNat)

/-! ## JS string primitives

Character-list implementations of the JavaScript string methods the server
uses (`trim`, `toLowerCase`, `toUpperCase`, `split(",")`): executable and
kernel-reducible. -/

/-- JS WhiteSpace/LineTerminator characters recognised by `String.prototype.trim`. -/
def isJsWs (c : Char) : Bool :=
  c == ' ' || c == '\t' || c == '\n' || c == '\r' || c == '\x0b' ||
  c == '\x0c' || c == '\u00a0' || c == '\ufeff'

def trimChars (l : List Char) : List Char :=
  ((l.dropWhile isJsWs).reverse.dropWhile isJsWs).reverse

/-- JS `s.trim()`. -/
def jsTrim (s : String) : String := String.mk (trimChars s.data)

/-- JS `s.toLowerCase()` (ASCII range, which is all the server feeds it). -/
def jsToLower (s : String) : String := String.mk (s.data.map Char.toLower)

/-- JS `s.toUpperCase()` (ASCII range). -/
def jsToUpper (s : String) : String := String.mk (s.data.map Char.toUpper)

/-- JS `s.split(",")` on character lists: always at least one piece. -/
def splitComma : List Char → List (List Char)
  | [] => [[]]
  | c :: rest =>
    let r := splitComma rest
    if c == ',' then [] :: r
    else match r with
      | h :: t => (c :: h) :: t
      | [] => [[c]]

/-- src/index.js lines 325-329: `hash = (value) =>
crypto.createHash("sha256").update(String(value).trim().toLowerCase()).digest("hex")`. -/
def hash (value : String) : String :=
  sha256hexBytes (utf8Bytes (jsToLower (jsTrim value)))

/-! ## JavaScript string falsiness -/

/-- JS truthiness of a string-valued value: `none` models `undefined` and
`some ""` the empty string, both falsy; every other string is truthy. -/
def truthyS : Option String → Bool
  | none => false
  | some s => s != ""

/-- Keep a value only when truthy: models `x && x`-style guarded use and the
`if (x) obj.k = x` conditional-assignment pattern. -/
def keepTruthy : Option String → Option String
  | none => none
  | some s => if s == "" then none else some s

/-- JS `a || b` on string-valued operands. -/
def jsOr (a b : Option String) : Option String := if truthyS a then a else b

/-! ## Client IP derivation (src/index.js lines 334-339) -/

/-- The request metadata getClientIP reads: the two proxy headers, express's
`req.ip`, the socket peer address, and the User-Agent header (used later by
the track handler). -/
structure RequestCtx where
  xForwardedFor : Option String
  xRealIp : Option String
  ip : Option String
  socketRemoteAddress : Option String
  userAgentHeader : Option String
deriving DecidableEq

/-- `header.split(",")[0].trim()`: first comma-separated entry, trimmed. -/
def firstForwarded (s : String) : String :=
  jsTrim (String.mk ((splitComma s.data).headD []))

/-- src/index.js lines 334-339:
`req.headers["x-forwarded-for"]?.split(",")[0]?.trim() ||
req.headers["x-real-ip"] || req.ip || req.socket?.remoteAddress || "unknown"`. -/
def getClientIP (ctx : RequestCtx) : String :=
  (jsOr (jsOr (jsOr (jsOr (ctx.xForwardedFor.map firstForwarded) ctx.xRealIp)
    ctx.ip) ctx.socketRemoteAddress) (some "unknown")).getD "unknown"

/-- The amended reading of the client-IP claim: each source in the precedence
chain applies only when its value is non-empty (JS `||` skips an empty
string), the forwarded-for entry being its first comma-separated element
trimmed. -/
def clientIPAmended (ctx : RequestCtx) : String :=
  let fwd := match ctx.xForwardedFor with
    | some s => firstForwarded s
    | none => ""
  if fwd ≠ "" then fwd
  else if ctx.xRealIp.getD "" ≠ "" then ctx.xRealIp.getD ""
  else if ctx.ip.getD "" ≠ "" then ctx.ip.getD ""
  else if ctx.socketRemoteAddress.getD "" ≠ "" then ctx.socketRemoteAddress.getD ""
  else "unknown"

/-! ## GET /ip-check (src/index.js lines 397-437) -/

structure Provider where
  name : String
  url : String
deriving DecidableEq

def provider0 : Provider := ⟨"ifconfig.me", "https://ifconfig.me/all.json"⟩

def provider1 : Provider := ⟨"ip-api", "http://ip-api.com/json"⟩

def ipProviders : List Provider := [provider0, provider1]

inductive IpCheckResult where
  | success (provider : String) (data : String)
  | allFailed (details : List (String × String))
deriving DecidableEq

/-- The fallback loop of /ip-check, instrumented with the list of provider
names actually attempted. `attempt` models one outbound `axios.get`:
`.ok body` is a transport-level success, `.error msg` a transport failure. -/
def ipCheckGo (attempt : Provider → Except String String) :
    List Provider → List (String × String) → IpCheckResult × List String
  | [], errs => (.allFailed errs, [])
  | p :: rest, errs =>
    match attempt p with
    | .ok d => (.success p.name d, [p.name])
    | .error e =>
      let r := ipCheckGo attempt rest (errs ++ [(p.name, e)])
      (r.1, p.name :: r.2)

def ipCheck (attempt : Provider → Except String String) :
    IpCheckResult × List String :=
  ipCheckGo attempt ipProviders []

/-- The HTTP status the /ip-check handler responds with. -/
def ipCheckStatus : IpCheckResult → Nat
  | .success _ _ => 200
  | .allFailed _ => 500

/-! ## GET /tiktok-business-test and /tiktok-events-test
(src/index.js lines 443-498) -/

structure ReachResp where
  reachable : Bool
  httpStatus : Nat
  interpretation : String
deriving DecidableEq

/-- The /tiktok-business-test response for a received HTTP status (the axios
call uses `validateStatus: () => true`, so every received response reaches
this code; only transport failures escape to the global error handler). -/
def businessTest (status : Nat) : ReachResp :=
  let isReachable := decide (200 ≤ status ∧ status < 500)
  { reachable := isReachable
    httpStatus := status
    interpretation :=
      if status == 401 || status == 403 then
        "SUCCESS: TikTok API reachable (auth expected)"
      else if 200 ≤ status ∧ status < 300 then
        "SUCCESS: TikTok API reachable"
      else if isReachable then "Reachable but unexpected status"
      else "Server error from TikTok" }

/-- The /tiktok-events-test response for a received HTTP status. -/
def eventsTest (status : Nat) : ReachResp :=
  let isReachable := decide (200 ≤ status ∧ status < 500)
  { reachable := isReachable
    httpStatus := status
    interpretation :=
      if 400 ≤ status ∧ status < 500 then
        "SUCCESS: Events API reachable (auth/data error expected)"
      else "Unexpected response" }

inductive ReachOutcome where
  | response (r : ReachResp)
  | transportFailure (msg : String)
deriving DecidableEq

/-- Full outcome of the business probe: a received response is serialized by
the handler; a transport failure (axios throws) escapes the asyncHandler to
the global error handler. -/
def businessTestOutcome : Except String Nat → ReachOutcome
  | .ok s => .response (businessTest s)
  | .error m => .transportFailure m

/-! ## POST /test-track-tiktok (src/index.js lines 504-684) -/

structure BrowserData where
  userAgent : Option String
  language : Option String
  referrer : Option String
deriving DecidableEq

/-- The referrer spread of the page object:
`...(browserData.referrer && browserData.referrer !== "Direct" && { referrer })`. -/
def referrerOpt (bd : BrowserData) : Option String :=
  match keepTruthy bd.referrer with
  | some r => if r == "Direct" then none else some r
  | none => none

structure TrackReq where
  pixelId : Option String
  accessToken : Option String
  testEventCode : Option String
  event : Option String
  eventId : Option String
  url : Option String
  email : Option String
  phone : Option String
  value : Option Int
  currency : Option String
  ttclid : Option String
  ttp : Option String
  browserData : Option BrowserData
deriving DecidableEq

structure Page where
  url : String
  referrer : Option String
deriving DecidableEq

structure UserObject where
  user_agent : String
  ip : String
  external_id : Option String
  locale : Option String
  email : Option (List String)
  phone_number : Option (List String)
  ttclid : Option String
  ttp : Option String
deriving DecidableEq

structure EventProperties where
  currency : Option String
  value : Option Int
  content_type : String
deriving DecidableEq

structure EventData where
  event : String
  event_time : Nat
  event_id : String
  page : Page
  user : UserObject
  properties : EventProperties
deriving DecidableEq

structure Payload where
  event_source : String
  event_source_id : String
  test_event_code : Option String
  data : List EventData
deriving DecidableEq

inductive TrackResult where
  | validationError (pixelIdStatus : String) (accessTokenStatus : String)
  | invalidEvent (error : String)
  | send (payload : Payload) (eventId : String) (warnings : List String)
deriving DecidableEq

def validEvents : List String :=
  ["PageView", "ViewContent", "AddToCart", "InitiateCheckout", "PlaceAnOrder",
   "CompletePayment", "Contact", "SubmitForm", "Subscribe",
   "CompleteRegistration"]

def ttpWarning : String :=
  "Missing _ttp cookie - Load TikTok Pixel first for better matching"

def matchWarning : String :=
  "No email/phone provided - Event matching may be limited"

/-- The pure part of the POST /test-track-tiktok handler, up to (and
including) assembling the outbound payload. `now` is `Date.now()` in
milliseconds; `randE` and `randU` are the hex strings of
`crypto.randomBytes(4)` / `crypto.randomBytes(8)` used for the generated
event id and the synthetic external id. -/
def trackBuild (req : TrackReq) (ctx : RequestCtx) (now : Nat)
    (randE randU : String) : TrackResult :=
  let event := req.event.getD "PageView"
  let bd := req.browserData.getD ⟨none, none, none⟩
  if !truthyS req.pixelId || !truthyS req.accessToken then
    .validationError (if truthyS req.pixelId then "OK" else "Required")
      (if truthyS req.accessToken then "OK" else "Required")
  else if !validEvents.contains event then
    .invalidEvent ("Invalid event type. Valid types: " ++
      String.intercalate ", " validEvents)
  else
    let eventId := match keepTruthy req.eventId with
      | some e => e
      | none => "evt_" ++ toString now ++ "_" ++ randE
    let clientIP := getClientIP ctx
    let userAgent :=
      (jsOr (jsOr bd.userAgent ctx.userAgentHeader) (some "Mozilla/5.0")).getD
        "Mozilla/5.0"
    let externalId := match keepTruthy req.email with
      | some e => hash e
      | none => "user_" ++ randU
    let warnings :=
      (if !truthyS req.ttp then [ttpWarning] else []) ++
      (if !truthyS req.email && !truthyS req.phone then [matchWarning] else [])
    let userObject : UserObject :=
      { user_agent := userAgent
        ip := clientIP
        external_id := if externalId != "" then some externalId else none
        locale := keepTruthy bd.language
        email := (keepTruthy req.email).map (fun e => [hash e])
        phone_number := (keepTruthy req.phone).map (fun p => [hash p])
        ttclid := keepTruthy req.ttclid
        ttp := keepTruthy req.ttp }
    let payload : Payload :=
      { event_source := "web"
        event_source_id := req.pixelId.getD ""
        test_event_code := keepTruthy req.testEventCode
        data := [{
          event := event
          event_time := now / 1000
          event_id := eventId
          page :=
            { url := (keepTruthy req.url).getD "https://example.com"
              referrer := referrerOpt bd }
          user := userObject
          properties :=
            { currency := (keepTruthy req.currency).map jsToUpper
              value := match req.value with
                | some v => if v == 0 then none else some v
                | none => none
              content_type := "product" } }] }
    .send payload eventId warnings

/-- Number of outbound HTTP calls the handler performs for a build result:
only the `send` case reaches the `axios.post` to the events endpoint. -/
def outboundCalls : TrackResult → Nat
  | .send _ _ _ => 1
  | _ => 0

/-- The TikTok Events API response as far as the handler inspects it:
the transport HTTP status and the nested `code` field of the body
(`response.data?.code`, absent keys modelled by `none`). -/
structure UpstreamResp where
  status : Nat
  code : Option Int
deriving DecidableEq

/-- HTTP status of the whole request: 400 for either local validation
failure; on the send path 200 when axios resolves, 502 when the outbound
call throws (global error handler, axios error branch). -/
def trackHttpStatus : TrackResult → Except String UpstreamResp → Nat
  | .validationError _ _, _ => 400
  | .invalidEvent _, _ => 400
  | .send _ _ _, .ok _ => 200
  | .send _ _ _, .error _ => 502

structure FinalTrack where
  success : Bool
  eventId : String
  warnings : Option (List String)
  tiktokCode : Option Int
deriving DecidableEq

/-- The JSON answer of the handler on the send path, for an upstream
response axios resolved with: `success` is `tiktokCode === 0` where
`tiktokCode = response.data?.code`; the `warnings` key is spread in only
when the list is non-empty. -/
def trackRespond : TrackResult → UpstreamResp → Option FinalTrack
  | .send _ eid warns, up =>
    some { success := up.code == some 0
           eventId := eid
           warnings := if warns.length > 0 then some warns else none
           tiktokCode := up.code }
  | _, _ => none

/-! ## String inventory of an assembled payload (for the PII claim) -/

def optS : Option String → List String
  | none => []
  | some s => [s]

def optL : Option (List String) → List String
  | none => []
  | some l => l

def userStrings (u : UserObject) : List String :=
  [u.user_agent, u.ip] ++ optS u.external_id ++ optS u.locale ++
  optL u.email ++ optL u.phone_number ++ optS u.ttclid ++ optS u.ttp

def eventStrings (d : EventData) : List String :=
  [d.event, d.event_id, d.page.url] ++ optS d.page.referrer ++
  userStrings d.user ++ optS d.properties.currency ++
  [d.properties.content_type]

/-- Every string occurring anywhere in an assembled payload. -/
def payloadStrings (p : Payload) : List String :=
  [p.event_source, p.event_source_id] ++ optS p.test_event_code ++
  (p.data.map eventStrings).flatten

/-- The strings a sent payload can contain that are not PII digests: the
constants and the non-email/phone inputs, as the builder uses them. -/
def nonPIIStrings (req : TrackReq) (ctx : RequestCtx) (now : Nat)
    (randE randU : String) : List String :=
  let bd := req.browserData.getD ⟨none, none, none⟩
  ["web", req.pixelId.getD ""] ++ optS (keepTruthy req.testEventCode) ++
  [req.event.getD "PageView",
   (match keepTruthy req.eventId with
     | some e => e
     | none => "evt_" ++ toString now ++ "_" ++ randE),
   (keepTruthy req.url).getD "https://example.com"] ++
  optS (referrerOpt bd) ++
  [(jsOr (jsOr bd.userAgent ctx.userAgentHeader) (some "Mozilla/5.0")).getD
     "Mozilla/5.0",
   getClientIP ctx, "user_" ++ randU] ++
  optS (keepTruthy bd.language) ++ optS (keepTruthy req.ttclid) ++
  optS (keepTruthy req.ttp) ++
  optS ((keepTruthy req.currency).map jsToUpper) ++ ["product"]

/-- The digests a sent payload may contain for the phone input. -/
def phoneHashes (req : TrackReq) : List String :=
  optL ((keepTruthy req.phone).map (fun p => [hash p]))

/-- The digests a sent payload may contain for the email input. -/
def emailHashes (req : TrackReq) : List String :=
  optL ((keepTruthy req.email).map (fun e => [hash e]))

/-! ## Helper lemmas -/

theorem hash_length (v : String) : (hash v).length = 64 := rfl

theorem hash_ne_empty (v : String) : hash v ≠ "" := by
  intro h
  have h64 := hash_length v
  rw [h] at h64
  exact absurd h64 (by decide)

theorem ne_hash_of_length (s v : String) (h : s.length ≠ 64) : s ≠ hash v := by
  intro he
  rw [he, hash_length] at h
  exact h rfl

theorem user_rand_ne_empty (r : String) : ("user_" ++ r) ≠ "" := by
  intro h
  have h2 : ("user_" ++ r).length = 0 := by rw [h]; rfl
  rw [String.length_append] at h2
  have h3 : "user_".length = 5 := rfl
  omega

/-! ## Claims -/

/-- C3: the PII hash is deterministic and insensitive to leading/trailing
whitespace and letter case — strings equal after trimming and lower-casing
hash equally; in particular `hash " Foo@Bar.com " = hash "foo@bar.com"`. -/
theorem claim_C3 :
    (∀ a b : String, jsToLower (jsTrim a) = jsToLower (jsTrim b) → hash a = hash b) ∧
    hash " Foo@Bar.com " = hash "foo@bar.com" := by
  constructor
  · intro a b h
    unfold hash
    rw [h]
  · have h : jsToLower (jsTrim " Foo@Bar.com ") = jsToLower (jsTrim "foo@bar.com") := by
      decide
    unfold hash
    rw [h]

attribute [irreducible] hash

/-- C4 counterexample: with `x-forwarded-for` present but empty (its first
comma-separated entry trims to `""`) and `x-real-ip: 5.6.7.8`, the code
derives `"5.6.7.8"`, not the first forwarded entry `""` the claim requires
for every request whose forwarded-for header is present. -/
theorem claim_C4_counterexample :
    getClientIP ⟨some "", some "5.6.7.8", none, none, none⟩ = "5.6.7.8" ∧
    firstForwarded "" = "" ∧ ("5.6.7.8" : String) ≠ "" := by
  refine ⟨by decide, by decide, by decide⟩

/-- C4 (amended): the derived client IP follows the precedence chain
forwarded-for first entry (trimmed), then `x-real-ip`, then `req.ip`, then
the socket peer address, then the literal `"unknown"`, where each source
applies only when present with a non-empty value; in particular
`x-forwarded-for: "1.2.3.4, 5.6.7.8"` derives `"1.2.3.4"`, and no sources
at all derive `"unknown"`. -/
theorem claim_C4 :
    (∀ ctx : RequestCtx, getClientIP ctx = clientIPAmended ctx) ∧
    getClientIP ⟨some "1.2.3.4, 5.6.7.8", none, none, none, none⟩ = "1.2.3.4" ∧
    getClientIP ⟨none, none, none, none, none⟩ = "unknown" := by
  refine ⟨?_, by decide, rfl⟩
  intro ctx
  rcases ctx with ⟨xf, xr, i, sa, ua⟩
  cases xf <;> cases xr <;> cases i <;> cases sa <;>
    simp [getClientIP, clientIPAmended, jsOr, truthyS, firstForwarded] <;>
    split_ifs <;> simp_all

/-- C1: whenever `pixelId` or `accessToken` is missing or empty, the track
handler answers with the per-field error map (each field `"Required"` or
`"OK"`), the response status is 400 whatever the upstream would do, and no
outbound call is performed. -/
theorem claim_C1 (req : TrackReq) (ctx : RequestCtx) (now : Nat)
    (randE randU : String)
    (h : truthyS req.pixelId = false ∨ truthyS req.accessToken = false) :
    trackBuild req ctx now randE randU =
      .validationError (if truthyS req.pixelId then "OK" else "Required")
        (if truthyS req.accessToken then "OK" else "Required") ∧
    outboundCalls (trackBuild req ctx now randE randU) = 0 ∧
    ∀ up, trackHttpStatus (trackBuild req ctx now randE randU) up = 400 := by
  have hcond : (!truthyS req.pixelId || !truthyS req.accessToken) = true := by
    rcases h with h | h <;> simp [h]
  refine ⟨by simp [trackBuild, hcond], ?_, ?_⟩
  · simp [trackBuild, hcond, outboundCalls]
  · intro up
    simp [trackBuild, hcond, trackHttpStatus]

/-- C1 witness: the empty request is rejected with both fields `"Required"`,
zero outbound calls and status 400. -/
theorem claim_C1_witness :
    trackBuild
        ⟨none, none, none, none, none, none, none, none, none, none, none,
          none, none⟩ ⟨none, none, none, none, none⟩ 0 "aa" "bb" =
      .validationError "Required" "Required" ∧
    outboundCalls
      (trackBuild
        ⟨none, none, none, none, none, none, none, none, none, none, none,
          none, none⟩ ⟨none, none, none, none, none⟩ 0 "aa" "bb") = 0 :=
  have h := claim_C1
    ⟨none, none, none, none, none, none, none, none, none, none, none,
      none, none⟩ ⟨none, none, none, none, none⟩ 0 "aa" "bb" (Or.inl rfl)
  ⟨h.1, h.2.1⟩

/-- C2: the event type defaults to `"PageView"` when omitted (the sent
payload carries `"PageView"`); every supplied event outside the 10-value
allowlist is answered with status 400 and zero outbound calls, and — once
the credential validation that runs first has passed — with the error
message that enumerates the allowlist. -/
theorem claim_C2 (req : TrackReq) (ctx : RequestCtx) (now : Nat)
    (randE randU : String) :
    (req.event = none → truthyS req.pixelId = true →
      truthyS req.accessToken = true →
      ∃ p eid w, trackBuild req ctx now randE randU = .send p eid w ∧
        p.data.map EventData.event = ["PageView"]) ∧
    (∀ ev, req.event = some ev → validEvents.contains ev = false →
      outboundCalls (trackBuild req ctx now randE randU) = 0 ∧
      (∀ up, trackHttpStatus (trackBuild req ctx now randE randU) up = 400) ∧
      (truthyS req.pixelId = true → truthyS req.accessToken = true →
        trackBuild req ctx now randE randU =
          .invalidEvent ("Invalid event type. Valid types: " ++
            String.intercalate ", " validEvents))) := by
  constructor
  · intro he hp ha
    simp only [trackBuild, he, hp, ha, Option.getD_none, Bool.not_true,
      Bool.or_self, Bool.false_eq_true, if_false]
    simp [validEvents]
  · intro ev hev hcon
    have hmem : ev ∉ validEvents := by simpa using hcon
    cases hc : (!truthyS req.pixelId || !truthyS req.accessToken) with
    | true =>
      refine ⟨by simp [trackBuild, hc, outboundCalls],
        fun up => by simp [trackBuild, hc, trackHttpStatus], ?_⟩
      intro hp ha
      rw [hp, ha] at hc
      simp at hc
    | false =>
      refine ⟨by simp [trackBuild, hc, hev, hmem, outboundCalls],
        fun up => by simp [trackBuild, hc, hev, hmem, trackHttpStatus],
        fun _ _ => by simp [trackBuild, hc, hev, hmem]⟩

/-- C2 witness: with valid credentials, an omitted event is sent as
`"PageView"`, and the unlisted event `"Purchase"` is rejected with the
allowlist-enumerating message, status 400 and zero outbound calls. -/
theorem claim_C2_witness :
    (∃ p eid w,
      trackBuild
          ⟨some "p1", some "t1", none, none, none, none, none, none, none,
            none, none, none, none⟩ ⟨none, none, none, none, none⟩ 0 "aa" "bb" =
        .send p eid w ∧ p.data.map EventData.event = ["PageView"]) ∧
    outboundCalls
      (trackBuild
        ⟨some "p1", some "t1", none, some "Purchase", none, none, none, none,
          none, none, none, none, none⟩ ⟨none, none, none, none, none⟩ 0 "aa"
        "bb") = 0 ∧
    trackBuild
        ⟨some "p1", some "t1", none, some "Purchase", none, none, none, none,
          none, none, none, none, none⟩ ⟨none, none, none, none, none⟩ 0 "aa"
        "bb" =
      .invalidEvent ("Invalid event type. Valid types: " ++
        String.intercalate ", " validEvents) :=
  have h1 := (claim_C2
    ⟨some "p1", some "t1", none, none, none, none, none, none, none,
      none, none, none, none⟩ ⟨none, none, none, none, none⟩ 0 "aa" "bb").1
    rfl (by decide) (by decide)
  have h2 := (claim_C2
    ⟨some "p1", some "t1", none, some "Purchase", none, none, none, none,
      none, none, none, none, none⟩ ⟨none, none, none, none, none⟩ 0 "aa"
    "bb").2 "Purchase" rfl (by decide)
  ⟨h1, h2.1, h2.2.2 (by decide) (by decide)⟩

/-- C5: /ip-check tries the two providers strictly in order — a first-provider
success is returned as status 200 with that provider's name and body and the
second provider is never attempted; if the first fails and the second
succeeds, the second's name and body are returned; if both fail, the answer
is status 500 with exactly one (provider, error) detail pair per provider,
in attempt order. -/
theorem claim_C5 (attempt : Provider → Except String String) :
    (∀ d, attempt provider0 = .ok d →
      ipCheck attempt = (.success "ifconfig.me" d, ["ifconfig.me"]) ∧
      ipCheckStatus (ipCheck attempt).1 = 200) ∧
    (∀ e1 d, attempt provider0 = .error e1 → attempt provider1 = .ok d →
      ipCheck attempt = (.success "ip-api" d, ["ifconfig.me", "ip-api"]) ∧
      ipCheckStatus (ipCheck attempt).1 = 200) ∧
    (∀ e1 e2, attempt provider0 = .error e1 → attempt provider1 = .error e2 →
      ipCheck attempt =
        (.allFailed [("ifconfig.me", e1), ("ip-api", e2)],
          ["ifconfig.me", "ip-api"]) ∧
      ipCheckStatus (ipCheck attempt).1 = 500) := by
  refine ⟨?_, ?_, ?_⟩
  · intro d h
    simp only [provider0] at h
    simp [ipCheck, ipCheckGo, ipProviders, provider0, provider1, h,
      ipCheckStatus]
  · intro e1 d h1 h2
    simp only [provider0] at h1
    simp only [provider1] at h2
    simp [ipCheck, ipCheckGo, ipProviders, provider0, provider1, h1, h2,
      ipCheckStatus]
  · intro e1 e2 h1 h2
    simp only [provider0] at h1
    simp only [provider1] at h2
    simp [ipCheck, ipCheckGo, ipProviders, provider0, provider1, h1, h2,
      ipCheckStatus]

/-- C5 witness: with a concrete attempt function that fails on the first
provider and succeeds on the second, the fallback returns the second
provider's name and body after attempting both. -/
theorem claim_C5_witness :
    ipCheck (fun p => if p.name == "ip-api" then .ok "BODY" else .error "ECONNREFUSED") =
      (.success "ip-api" "BODY", ["ifconfig.me", "ip-api"]) :=
  ((claim_C5 _).2.1 "ECONNREFUSED" "BODY" rfl rfl).1

/-- If `keepTruthy` keeps a value, it is the one that was supplied. -/
theorem keepTruthy_eq_some (x : Option String) (v : String)
    (h : keepTruthy x = some v) : x = some v := by
  cases x with
  | none => simp [keepTruthy] at h
  | some s =>
    simp only [keepTruthy] at h
    by_cases hs : s == ""
    · simp [hs] at h
    · simp [hs] at h
      rw [h]

/-- C6: on the send path, the caller-visible `success` flag is true exactly
when the nested `code` field of the upstream body equals 0; it does not
depend on the transport HTTP status at all. -/
theorem claim_C6 (r : TrackResult) (p : Payload) (eid : String)
    (w : List String) (h : r = .send p eid w) (up : UpstreamResp) :
    ∃ f, trackRespond r up = some f ∧ (f.success = true ↔ up.code = some 0) ∧
      ∀ up' : UpstreamResp, up'.code = up.code →
        ∃ f', trackRespond r up' = some f' ∧ f'.success = f.success := by
  subst h
  refine ⟨_, rfl, ?_, ?_⟩
  · simp [trackRespond]
  · intro up' hc
    refine ⟨_, rfl, ?_⟩
    simp [trackRespond, hc]

/-- C6 witness: a concrete send result with an upstream 200 whose body code
is 1 — the flag is governed by the nested code, not the HTTP 200. -/
theorem claim_C6_witness :
    ∃ f, trackRespond (TrackResult.send ⟨"web", "p1", none, []⟩ "e1" [])
        ⟨200, some 1⟩ = some f ∧
      (f.success = true ↔ (some 1 : Option Int) = some 0) ∧
      ∀ up' : UpstreamResp, up'.code = some 1 →
        ∃ f', trackRespond (TrackResult.send ⟨"web", "p1", none, []⟩ "e1" [])
            up' = some f' ∧ f'.success = f.success :=
  claim_C6 _ _ _ _ rfl ⟨200, some 1⟩

/-- C8: for every request that passes validation the result is sent (one
outbound call, warnings never block it); a missing/empty `ttp` puts the
_ttp-cookie warning in the list, missing email and phone put the distinct
match-quality warning in the list, and supplying both email and `ttp`
yields zero warnings. -/
theorem claim_C8 (req : TrackReq) (ctx : RequestCtx) (now : Nat)
    (randE randU : String)
    (hp : truthyS req.pixelId = true) (ha : truthyS req.accessToken = true)
    (hev : validEvents.contains (req.event.getD "PageView") = true) :
    ∃ p eid w, trackBuild req ctx now randE randU = .send p eid w ∧
      (truthyS req.ttp = false → ttpWarning ∈ w) ∧
      (truthyS req.email = false → truthyS req.phone = false →
        matchWarning ∈ w ∧ matchWarning ≠ ttpWarning) ∧
      (truthyS req.email = true → truthyS req.ttp = true → w = []) ∧
      outboundCalls (trackBuild req ctx now randE randU) = 1 := by
  have hmem : req.event.getD "PageView" ∈ validEvents := by simpa using hev
  simp only [trackBuild, hp, ha, Bool.not_true, Bool.or_self,
    Bool.false_eq_true, if_false, hmem]
  simp only [if_pos hmem, List.elem_eq_mem, hmem, decide_True, Bool.not_true,
    Bool.false_eq_true, if_false]
  refine ⟨_, _, _, rfl, ?_, ?_, ?_, ?_⟩
  · intro ht
    simp [ht]
  · intro he hph
    refine ⟨by simp [he, hph], by decide⟩
  · intro he ht
    simp [he, ht]
  · simp [trackBuild, hp, ha, hmem, outboundCalls]

/-- C8 witness: valid credentials with an email and a `ttp` cookie give a
sent event with zero warnings. -/
theorem claim_C8_witness :
    ∃ p eid w,
      trackBuild
          ⟨some "p1", some "t1", none, none, none, none, some "a@b.co", none,
            none, none, none, some "tt", none⟩ ⟨none, none, none, none, none⟩
          0 "aa" "bb" = .send p eid w ∧
      (truthyS (some "tt") = false → ttpWarning ∈ w) ∧
      (truthyS (some "a@b.co") = false → truthyS (none : Option String) = false →
        matchWarning ∈ w ∧ matchWarning ≠ ttpWarning) ∧
      (truthyS (some "a@b.co") = true → truthyS (some "tt") = true → w = []) ∧
      outboundCalls
        (trackBuild
          ⟨some "p1", some "t1", none, none, none, none, some "a@b.co", none,
            none, none, none, some "tt", none⟩ ⟨none, none, none, none, none⟩
          0 "aa" "bb") = 1 :=
  claim_C8 _ _ _ _ _ (by decide) (by decide) (by decide)

/-- C9 counterexample: a received HTTP 500 response is reported with
`reachable = false` and the interpretation "Server error from TikTok" — a
5xx is not reported as reachable-but-unexpected, contradicting the claim
that reachability is exactly "any HTTP response was received". -/
theorem claim_C9_counterexample :
    (businessTest 500).reachable = false ∧
    (businessTest 500).httpStatus = 500 ∧
    (businessTest 500).interpretation = "Server error from TikTok" ∧
    businessTestOutcome (.ok 500) = .response (businessTest 500) := by
  refine ⟨by decide, by decide, by decide, rfl⟩

/-- C9 (amended): 401/403 and 2xx are SUCCESS; `reachable` is true exactly
for received HTTP statuses in [200, 500); other such statuses are
"Reachable but unexpected status"; a received 5xx yields `reachable = false`
with "Server error from TikTok" (still an HTTP 200 diagnostic answer),
while only a pure transport failure takes the transport-failure path; the
events-test variant computes the same reachable flag and reports 4xx as its
SUCCESS signal. -/
theorem claim_C9 (s : Nat) :
    ((businessTest s).reachable = true ↔ 200 ≤ s ∧ s < 500) ∧
    (s = 401 ∨ s = 403 →
      (businessTest s).interpretation =
        "SUCCESS: TikTok API reachable (auth expected)") ∧
    (200 ≤ s → s < 300 →
      (businessTest s).interpretation = "SUCCESS: TikTok API reachable") ∧
    (300 ≤ s → s < 500 → s ≠ 401 → s ≠ 403 →
      (businessTest s).interpretation = "Reachable but unexpected status") ∧
    (500 ≤ s →
      (businessTest s).reachable = false ∧
      (businessTest s).interpretation = "Server error from TikTok") ∧
    (∀ m, businessTestOutcome (.error m) = .transportFailure m) ∧
    (eventsTest s).reachable = (businessTest s).reachable ∧
    (400 ≤ s → s < 500 →
      (eventsTest s).interpretation =
        "SUCCESS: Events API reachable (auth/data error expected)") := by
  refine ⟨?_, ?_, ?_, ?_, ?_, fun m => rfl, ?_, ?_⟩
  · simp [businessTest]
  · rintro (rfl | rfl) <;> rfl
  · intro h1 h2
    have h4 : (s == 401 || s == 403) = false := by
      simp
      omega
    simp [businessTest, h4, h1, h2]
  · intro h1 h2 h3 h4
    have h5 : (s == 401 || s == 403) = false := by simp [h3, h4]
    have h6 : ¬(200 ≤ s ∧ s < 300) := by omega
    have h7 : 200 ≤ s ∧ s < 500 := by omega
    simp [businessTest, h5, h6, h7]
    omega
  · intro h1
    have h4 : (s == 401 || s == 403) = false := by
      simp
      omega
    have h6 : ¬(200 ≤ s ∧ s < 300) := by omega
    have h7 : ¬(200 ≤ s ∧ s < 500) := by omega
    simp [businessTest, h4, h6, h7]
  · simp [businessTest, eventsTest]
  · intro h1 h2
    have h7 : 400 ≤ s ∧ s < 500 := ⟨h1, h2⟩
    simp [eventsTest, h7]

/-- C10: optional-field inclusion follows JS truthiness, not key presence —
`value: 0` and `currency: ""` behave exactly as if the field were absent
(the payload omits the key), and an empty-string `eventId` is replaced by a
freshly generated `evt_<now>_<rand>` id, exactly as when no id is supplied. -/
theorem claim_C10 (req : TrackReq) (ctx : RequestCtx) (now : Nat)
    (randE randU : String)
    (hp : truthyS req.pixelId = true) (ha : truthyS req.accessToken = true)
    (hev : validEvents.contains (req.event.getD "PageView") = true) :
    (req.value = some 0 →
      trackBuild req ctx now randE randU =
        trackBuild { req with value := none } ctx now randE randU ∧
      ∃ p eid w, trackBuild req ctx now randE randU = .send p eid w ∧
        p.data.map (fun d => d.properties.value) = [none]) ∧
    (req.currency = some "" →
      trackBuild req ctx now randE randU =
        trackBuild { req with currency := none } ctx now randE randU ∧
      ∃ p eid w, trackBuild req ctx now randE randU = .send p eid w ∧
        p.data.map (fun d => d.properties.currency) = [none]) ∧
    (req.eventId = some "" →
      trackBuild req ctx now randE randU =
        trackBuild { req with eventId := none } ctx now randE randU ∧
      ∃ p w, trackBuild req ctx now randE randU =
        .send p ("evt_" ++ toString now ++ "_" ++ randE) w) := by
  have hmem : req.event.getD "PageView" ∈ validEvents := by simpa using hev
  refine ⟨?_, ?_, ?_⟩
  · intro hv
    constructor
    · simp [trackBuild, hv]
    · simp only [trackBuild, hp, ha, Bool.not_true, Bool.or_self,
        Bool.false_eq_true, if_false]
      simp only [List.elem_eq_mem, hmem, decide_True, Bool.not_true,
        Bool.false_eq_true, if_false]
      exact ⟨_, _, _, rfl, by simp [hv]⟩
  · intro hc
    constructor
    · simp [trackBuild, hc, keepTruthy]
    · simp only [trackBuild, hp, ha, Bool.not_true, Bool.or_self,
        Bool.false_eq_true, if_false]
      simp only [List.elem_eq_mem, hmem, decide_True, Bool.not_true,
        Bool.false_eq_true, if_false]
      exact ⟨_, _, _, rfl, by simp [hc, keepTruthy]⟩
  · intro hid
    constructor
    · simp [trackBuild, hid, keepTruthy]
    · simp only [trackBuild, hp, ha, Bool.not_true, Bool.or_self,
        Bool.false_eq_true, if_false]
      simp only [List.elem_eq_mem, hmem, decide_True, Bool.not_true,
        Bool.false_eq_true, if_false]
      have hid2 : keepTruthy req.eventId = none := by rw [hid]; rfl
      simp only [hid2]
      exact ⟨_, _, rfl⟩

/-- C10 witness: with `value: 0`, `currency: ""` and `eventId: ""` supplied,
the assembled payload omits value and currency and carries the generated
event id. -/
theorem claim_C10_witness :
    (∃ p eid w,
      trackBuild
          ⟨some "p1", some "t1", none, none, some "", none, none, none,
            some 0, some "", none, none, none⟩ ⟨none, none, none, none, none⟩
          7 "aa" "bb" = .send p eid w ∧
      p.data.map (fun d => d.properties.value) = [none]) ∧
    (∃ p eid w,
      trackBuild
          ⟨some "p1", some "t1", none, none, some "", none, none, none,
            some 0, some "", none, none, none⟩ ⟨none, none, none, none, none⟩
          7 "aa" "bb" = .send p eid w ∧
      p.data.map (fun d => d.properties.currency) = [none]) ∧
    ∃ p w,
      trackBuild
          ⟨some "p1", some "t1", none, none, some "", none, none, none,
            some 0, some "", none, none, none⟩ ⟨none, none, none, none, none⟩
          7 "aa" "bb" = .send p ("evt_" ++ toString 7 ++ "_" ++ "aa") w :=
  have h := claim_C10
    ⟨some "p1", some "t1", none, none, some "", none, none, none,
      some 0, some "", none, none, none⟩ ⟨none, none, none, none, none⟩
    7 "aa" "bb" (by decide) (by decide) (by decide)
  ⟨(h.1 rfl).2, (h.2.1 rfl).2, (h.2.2 rfl).2⟩

set_option maxHeartbeats 2000000 in
/-- C7: the assembled payload carries a supplied email or phone only as its
one-way digest — the user object's email and phone_number fields are exactly
the digest arrays of the kept inputs — and every string in the payload is
either one of those digests or derived from the non-PII inputs; hence,
whenever the raw email (respectively the raw phone) differs from the
non-PII-derived strings and from the digests, that raw value appears nowhere
in the payload. -/
theorem claim_C7 (req : TrackReq) (ctx : RequestCtx) (now : Nat)
    (randE randU : String)
    (hp : truthyS req.pixelId = true) (ha : truthyS req.accessToken = true)
    (hev : validEvents.contains (req.event.getD "PageView") = true) :
    ∃ p eid w, trackBuild req ctx now randE randU = .send p eid w ∧
      p.data.map (fun d => d.user.email) =
        [(keepTruthy req.email).map (fun e => [hash e])] ∧
      p.data.map (fun d => d.user.phone_number) =
        [(keepTruthy req.phone).map (fun ph => [hash ph])] ∧
      payloadStrings p ⊆
        emailHashes req ++ phoneHashes req ++
          nonPIIStrings req ctx now randE randU ∧
      (∀ e, req.email = some e → e ≠ "" →
        p.data.map (fun d => d.user.email) = [some [hash e]] ∧
        (e ∉ nonPIIStrings req ctx now randE randU → e ≠ hash e →
          (∀ ph, req.phone = some ph → e ≠ hash ph) →
          e ∉ payloadStrings p)) ∧
      (∀ ph, req.phone = some ph → ph ≠ "" →
        p.data.map (fun d => d.user.phone_number) = [some [hash ph]] ∧
        (ph ∉ nonPIIStrings req ctx now randE randU → ph ≠ hash ph →
          (∀ e, req.email = some e → ph ≠ hash e) →
          ph ∉ payloadStrings p)) := by
  have hmem : req.event.getD "PageView" ∈ validEvents := by simpa using hev
  simp only [trackBuild, hp, ha, Bool.not_true, Bool.or_self,
    Bool.false_eq_true, if_false]
  simp only [List.elem_eq_mem, hmem, decide_True, Bool.not_true,
    Bool.false_eq_true, if_false]
  refine ⟨_, _, _, rfl, by simp, by simp, ?_, ?_, ?_⟩
  · intro a ha2
    cases hke : keepTruthy req.email with
    | none =>
      have hxu : (("user_" ++ randU) != "") = true := by
        simp [user_rand_ne_empty]
      simp only [payloadStrings, eventStrings, userStrings, optS, optL,
        emailHashes, nonPIIStrings, phoneHashes, List.map_cons, List.map_nil,
        List.flatten, List.append_nil, List.nil_append, List.mem_append,
        List.mem_cons, List.mem_singleton, List.not_mem_nil, hke,
        Option.map_none', hxu, if_true] at ha2 ⊢
      tauto
    | some e =>
      have hxe : ((hash e) != "") = true := by simp [hash_ne_empty]
      simp only [payloadStrings, eventStrings, userStrings, optS, optL,
        emailHashes, nonPIIStrings, phoneHashes, List.map_cons, List.map_nil,
        List.flatten, List.append_nil, List.nil_append, List.mem_append,
        List.mem_cons, List.mem_singleton, List.not_mem_nil, hke,
        Option.map_some', hxe, if_true] at ha2 ⊢
      set dE := hash e with hdE
      tauto
  · intro e hemail hene
    have hkeep : keepTruthy req.email = some e := by
      rw [hemail]
      simp [keepTruthy, hene]
    have hxe : ((hash e) != "") = true := by simp [hash_ne_empty]
    refine ⟨by simp [hkeep], ?_⟩
    intro h1 h2 h3 hmemP
    cases hph : keepTruthy req.phone with
    | none =>
      simp only [payloadStrings, eventStrings, userStrings, optS, optL,
        List.map_cons, List.map_nil, List.flatten, List.append_nil,
        List.nil_append, List.mem_append, List.mem_cons, List.mem_singleton,
        List.not_mem_nil, hph, hkeep, Option.map_none', Option.map_some',
        hxe, if_true] at hmemP
      simp only [nonPIIStrings, List.mem_append, List.mem_cons,
        List.mem_singleton, List.not_mem_nil] at h1
      set dE := hash e with hdE
      tauto
    | some ph =>
      have hne := h3 ph (keepTruthy_eq_some _ _ hph)
      simp only [payloadStrings, eventStrings, userStrings, optS, optL,
        List.map_cons, List.map_nil, List.flatten, List.append_nil,
        List.nil_append, List.mem_append, List.mem_cons, List.mem_singleton,
        List.not_mem_nil, hph, hkeep, Option.map_some', hxe,
        if_true] at hmemP
      simp only [nonPIIStrings, List.mem_append, List.mem_cons,
        List.mem_singleton, List.not_mem_nil] at h1
      set dE := hash e with hdE
      set dP := hash ph with hdP
      tauto
  · intro ph hphone hphne
    have hkp : keepTruthy req.phone = some ph := by
      rw [hphone]
      simp [keepTruthy, hphne]
    refine ⟨by simp [hkp], ?_⟩
    intro h1 h2 h3 hmemP
    cases hke : keepTruthy req.email with
    | none =>
      have hxu : (("user_" ++ randU) != "") = true := by
        simp [user_rand_ne_empty]
      simp only [payloadStrings, eventStrings, userStrings, optS, optL,
        List.map_cons, List.map_nil, List.flatten, List.append_nil,
        List.nil_append, List.mem_append, List.mem_cons, List.mem_singleton,
        List.not_mem_nil, hkp, hke, Option.map_none', Option.map_some',
        hxu, if_true] at hmemP
      simp only [nonPIIStrings, List.mem_append, List.mem_cons,
        List.mem_singleton, List.not_mem_nil] at h1
      set dP := hash ph with hdP
      tauto
    | some e =>
      have hne := h3 e (keepTruthy_eq_some _ _ hke)
      have hxe : ((hash e) != "") = true := by simp [hash_ne_empty]
      simp only [payloadStrings, eventStrings, userStrings, optS, optL,
        List.map_cons, List.map_nil, List.flatten, List.append_nil,
        List.nil_append, List.mem_append, List.mem_cons, List.mem_singleton,
        List.not_mem_nil, hkp, hke, Option.map_some', hxe,
        if_true] at hmemP
      simp only [nonPIIStrings, List.mem_append, List.mem_cons,
        List.mem_singleton, List.not_mem_nil] at h1
      set dE := hash e with hdE
      set dP := hash ph with hdP
      tauto

/-- C7 witness: a request carrying email `"foo@bar.com"` (no phone) is sent
with only the digest in the user object's email array and the raw email
occurs nowhere in the payload; a request carrying phone `"+15551234567"`
(no email) is sent with only the digest in phone_number and the raw phone
occurs nowhere in the payload. -/
theorem claim_C7_witness :
    (∃ p eid w,
      trackBuild
          ⟨some "p1", some "t1", none, none, none, none, some "foo@bar.com",
            none, none, none, none, none, none⟩ ⟨none, none, none, none, none⟩
          3 "aa" "bb" = .send p eid w ∧
      p.data.map (fun d => d.user.email) = [some [hash "foo@bar.com"]] ∧
      "foo@bar.com" ∉ payloadStrings p) ∧
    ∃ p eid w,
      trackBuild
          ⟨some "p1", some "t1", none, none, none, none, none,
            some "+15551234567", none, none, none, none, none⟩
          ⟨none, none, none, none, none⟩ 3 "aa" "bb" = .send p eid w ∧
      p.data.map (fun d => d.user.phone_number) =
        [some [hash "+15551234567"]] ∧
      "+15551234567" ∉ payloadStrings p := by
  constructor
  · obtain ⟨p, eid, w, h1, _, _, _, hE, _⟩ := claim_C7
      ⟨some "p1", some "t1", none, none, none, none, some "foo@bar.com",
        none, none, none, none, none, none⟩ ⟨none, none, none, none, none⟩
      3 "aa" "bb" (by decide) (by decide) (by decide)
    obtain ⟨hmap, habs⟩ := hE "foo@bar.com" rfl (by decide)
    exact ⟨p, eid, w, h1, hmap, habs (by decide)
      (ne_hash_of_length _ _ (by decide)) (fun ph hph => by simp at hph)⟩
  · obtain ⟨p, eid, w, h1, _, _, _, _, hP⟩ := claim_C7
      ⟨some "p1", some "t1", none, none, none, none, none,
        some "+15551234567", none, none, none, none, none⟩
      ⟨none, none, none, none, none⟩ 3 "aa" "bb"
      (by decide) (by decide) (by decide)
    obtain ⟨hmap, habs⟩ := hP "+15551234567" rfl (by decide)
    exact ⟨p, eid, w, h1, hmap, habs (by decide)
      (ne_hash_of_length _ _ (by decide)) (fun e he => by simp at he)⟩

end TikTokServer
